import Mathlib

/-!
# ArrayBuffer and typed-array interop of quickjspp (`quickjspp-arraybuffer.hpp`)

A shallow embedding of the header: the ownership-bridging allocator
`ArrayBufferMoveAllocator`, the family of typed sequence wrappers, the
`js_traits` conversion routines and the `variant_traits` resolver.

Conventions of the embedding.

* A pointer is a natural number, `0` is the null pointer, and memory is a map
  from addresses to bytes.
* The engine is not part of the header.  Its answers to the two buffer queries
  are fields of the context, and every engine call issued by the header is
  appended to the call record of the context, so that statements about
  releases and raised type errors can be read off the record.
* `size_t` values are natural numbers; `static_cast<int32_t>` is `toInt32`.
* C++ behaviour that the language leaves undefined (division by zero, pointer
  ranges running backwards or starting at the null pointer) is the outcome
  `Outcome.undefined`.
-/

namespace qjs

set_option autoImplicit false

/-! ## Memory -/

/-- A native address; `0` is the null pointer. -/
abbrev Ptr := Nat

/-- Byte-addressed memory shared by the engine and the native side. -/
abbrev Memory := Ptr → UInt8

/-- Forward element-wise copy of `n` bytes from `src` to `dst`
(`std::copy` / `std::uninitialized_copy` over raw bytes). -/
def copyBytes (mem : Memory) (src dst : Ptr) (n : Nat) : Memory :=
  (List.range n).foldl (fun m i => Function.update m (dst + i) (m (src + i))) mem

/-- The `n` bytes stored at `p`. -/
def readBytes (mem : Memory) (p : Ptr) (n : Nat) : List UInt8 :=
  (List.range n).map (fun i => mem (p + i))

/-- Memory after storing the bytes `bs` at `p`. -/
def writeBytes (mem : Memory) (p : Ptr) (bs : List UInt8) : Memory :=
  fun a => if p ≤ a then (bs.get? (a - p)).getD (mem a) else mem a

/-! ## ArrayBufferMoveAllocator (lines 12-43) -/

/-- The allocator `ArrayBufferMoveAllocator<T>`: a stored pointer and a stored
element count. -/
structure ArrayBufferMoveAllocator where
  memory_ptr : Ptr
  memory_size : Nat
  deriving DecidableEq, Repr

namespace ArrayBufferMoveAllocator

/-- The call `allocate(n, hint)`: returns `memory_ptr`; the pair is the allocator
after the call and the returned pointer. -/
def allocate (a : ArrayBufferMoveAllocator) (_n : Nat) (_hint : Ptr) :
    ArrayBufferMoveAllocator × Ptr :=
  (a, a.memory_ptr)

/-- The call `deallocate(ptr, n)`: an empty body. -/
def deallocate (a : ArrayBufferMoveAllocator) (_ptr : Ptr) (_n : Nat) :
    ArrayBufferMoveAllocator :=
  a

/-- The call `max_size()`: returns `memory_size`. -/
def max_size (a : ArrayBufferMoveAllocator) : Nat :=
  a.memory_size

end ArrayBufferMoveAllocator

/-! ## The typed sequence family (lines 45-148) -/

/-- The element types `T` for which `TypedArray<T, Allocator>` is specialised. -/
inductive ElemType
  | uint8 | int8 | int16 | uint16 | int32 | uint32 | float | double | int64 | uint64
  deriving DecidableEq, Repr

namespace ElemType

/-- The constant `TypedArray<T>::bytesPerElement`, that is `sizeof(T)`. -/
def bytesPerElement : ElemType → Nat
  | uint8 => 1
  | int8 => 1
  | int16 => 2
  | uint16 => 2
  | int32 => 4
  | uint32 => 4
  | float => 4
  | double => 8
  | int64 => 8
  | uint64 => 8

/-- The constant `TypedArray<T>::className`. -/
def className : ElemType → String
  | uint8 => "Uint8Array"
  | int8 => "Int8Array"
  | int16 => "Int16Array"
  | uint16 => "Uint16Array"
  | int32 => "Int32Array"
  | uint32 => "Uint32Array"
  | float => "Float32Array"
  | double => "Float64Array"
  | int64 => "BigInt64Array"
  | uint64 => "BigUint64Array"

end ElemType

/-- A candidate kind: `NonTypedArray` (the untyped `ArrayBuffer`) or
`TypedArray<T>`. -/
inductive Kind
  | arrayBuffer
  | typed (T : ElemType)
  deriving DecidableEq, Repr

/-- Byte width of one element of a kind; untyped bytes have width one. -/
def Kind.width : Kind → Nat
  | .arrayBuffer => 1
  | .typed T => T.bytesPerElement

/-- A sequence in its aliasing form, `std::vector<T, ArrayBufferMoveAllocator<T>>`:
start of the storage, element count, capacity and the allocator it holds. -/
structure InArray where
  start : Ptr
  size : Nat
  capacity : Nat
  alloc : ArrayBufferMoveAllocator
  deriving DecidableEq, Repr

namespace InArray

/-- The constructor `TypedArray(const Allocator& alloc)`: an empty vector. -/
def new (alloc : ArrayBufferMoveAllocator) : InArray :=
  { start := 0, size := 0, capacity := 0, alloc := alloc }

/-- The call `arr.assign(first, first + n)` for elements of `w` bytes: when the
capacity is too small the storage comes from the allocator, and the source range
is copied element by element into the storage. -/
def assign (mem : Memory) (arr : InArray) (first : Ptr) (n w : Nat) : Memory × InArray :=
  if arr.capacity < n then
    let a := arr.alloc.allocate n 0
    (copyBytes mem first a.2 (n * w),
      { start := a.2, size := n, capacity := n, alloc := (a.1.deallocate arr.start arr.capacity) })
  else
    (copyBytes mem first arr.start (n * w), { arr with size := n })

/-- The bytes of the elements of the sequence. -/
def bytes (mem : Memory) (w : Nat) (arr : InArray) : List UInt8 :=
  readBytes mem arr.start (arr.size * w)

end InArray

/-! ## The engine boundary -/

/-- An engine value: the exception marker `JS_EXCEPTION` or an engine object. -/
inductive JSValue
  | exception
  | object (id : Nat)
  deriving DecidableEq, Repr

/-- The constant `JS_EXCEPTION`. -/
def JS_EXCEPTION : JSValue := JSValue.exception

/-- The type errors the header raises, one constructor per format string:
"js_traits<%s>::unwrap expects %s object" (TypeMismatch),
"js_traits<%s>::unwrap expects a buffer of size %d" (WidthMismatch),
"js_traits<ArrayBuffer>::unwrap expects ArrayBuffer object" (NoBufferPresent). -/
inductive TypeError
  | expectsObject (className : String)
  | expectsBufferOfSize (className : String) (bytesPerElement : Nat)
  | expectsArrayBuffer
  deriving DecidableEq, Repr

/-- One engine call issued by the header. -/
inductive Call
  | getTypedArrayBuffer (obj : JSValue)
  | getArrayBuffer (obj : JSValue)
  | freeValue (v : JSValue)
  | throwTypeError (e : TypeError)
  | newArrayBufferCopy (len : Nat)
  deriving DecidableEq, Repr

/-- The engine context: memory, the answers of the engine to the byte-buffer
query and to the typed-view query, the allocation frontier of the engine, and
the record of the engine calls made so far. -/
structure JSContext where
  mem : Memory
  arrayBuffer : JSValue → Ptr × Nat
  typedArray : JSValue → Option (Nat × Nat)
  brk : Ptr
  nextId : Nat
  calls : List Call

/-- Modelled from the spec: the engine query `JS_GetArrayBuffer(ctx, &psize, obj)`,
"query a buffer-like engine value, returning borrowed pointer + byte length, or a
not-a-buffer failure".  The result is the context, the returned pointer and the
value stored in `psize`. -/
def JS_GetArrayBuffer (ctx : JSContext) (obj : JSValue) : JSContext × Ptr × Nat :=
  ({ ctx with calls := ctx.calls ++ [Call.getArrayBuffer obj] },
    (ctx.arrayBuffer obj).1, (ctx.arrayBuffer obj).2)

/-- Modelled from the spec: the engine query
`JS_GetTypedArrayBuffer(ctx, obj, NULL, NULL, &pbytes_per_element)`, "query a
typed-view engine value, returning borrowed pointer + byte length + reported
element width, or a not-a-typed-view failure".  On failure the result is
`JS_EXCEPTION` and the out-variable keeps its previous content `old`; on success
the result is a fresh handle on the underlying buffer and the out-variable holds
the element width. -/
def JS_GetTypedArrayBuffer (ctx : JSContext) (obj : JSValue) (old : Nat) :
    JSContext × JSValue × Nat :=
  match ctx.typedArray obj with
  | none => ({ ctx with calls := ctx.calls ++ [Call.getTypedArrayBuffer obj] }, JS_EXCEPTION, old)
  | some (buf, w) =>
    ({ ctx with calls := ctx.calls ++ [Call.getTypedArrayBuffer obj] }, JSValue.object buf, w)

/-- The test `JS_IsException(v)`. -/
def JS_IsException (v : JSValue) : Bool :=
  decide (v = JSValue.exception)

/-- Modelled from the spec: the engine call `JS_FreeValue(ctx, v)`, "release any
temporary handle obtained from the above queries". -/
def JS_FreeValue (ctx : JSContext) (v : JSValue) : JSContext :=
  { ctx with calls := ctx.calls ++ [Call.freeValue v] }

/-- Modelled from the spec: the engine call `JS_ThrowTypeError(ctx, fmt, ...)`,
"raise a type error visible to the embedding engine's call site, carrying a
diagnostic message".  It is a C function: it records the error in the context
and returns `JS_EXCEPTION` to its caller. -/
def JS_ThrowTypeError (ctx : JSContext) (e : TypeError) : JSContext × JSValue :=
  ({ ctx with calls := ctx.calls ++ [Call.throwTypeError e] }, JS_EXCEPTION)

/-- Modelled from the spec: the engine call `JS_NewArrayBufferCopy(ctx, buf, len)`,
"allocate a new engine-owned buffer initialized by copying N bytes from a native
byte range".  The new buffer lies above the allocation frontier, so its pointer
is not null. -/
def JS_NewArrayBufferCopy (ctx : JSContext) (buf : List UInt8) : JSContext × JSValue :=
  ({ mem := writeBytes ctx.mem (ctx.brk + 1) buf,
     arrayBuffer := fun x =>
       if x = JSValue.object ctx.nextId then (ctx.brk + 1, buf.length) else ctx.arrayBuffer x,
     typedArray := fun x =>
       if x = JSValue.object ctx.nextId then none else ctx.typedArray x,
     brk := ctx.brk + 1 + buf.length,
     nextId := ctx.nextId + 1,
     calls := ctx.calls ++ [Call.newArrayBufferCopy buf.length] },
    JSValue.object ctx.nextId)

/-- The conversion `static_cast<int32_t>(x)` of a `size_t`. -/
def toInt32 (x : Nat) : Int :=
  if x % 2 ^ 32 < 2 ^ 31 then ((x % 2 ^ 32 : Nat) : Int) else ((x % 2 ^ 32 : Nat) : Int) - 2 ^ 32

/-- What a call of a conversion routine does: it returns a value, or its
behaviour is undefined in C++. -/
inductive Outcome (α : Type)
  | returned (a : α)
  | undefined
  deriving DecidableEq, Repr

/-! ## Conversion routines (lines 174-244) -/

namespace js_traits

/-- The routine `js_traits<TypedArray<T, ArrayBufferMoveAllocator<T>>>::unwrap`.
The argument `uninit` is the indeterminate content of the local
`pbytes_per_element` before the typed-view query writes it. -/
def InTypedArray.unwrap (T : ElemType) (uninit : Nat) (ctx : JSContext) (jsarr : JSValue) :
    JSContext × Outcome InArray :=
  let q := JS_GetTypedArrayBuffer ctx jsarr uninit
  let val := q.2.1
  let pbytes_per_element := q.2.2
  let ctx1 :=
    if JS_IsException val = true then
      (JS_ThrowTypeError q.1 (TypeError.expectsObject T.className)).1
    else q.1
  let ctx2 :=
    if pbytes_per_element ≠ T.bytesPerElement then
      (JS_ThrowTypeError (JS_FreeValue ctx1 val)
        (TypeError.expectsBufferOfSize T.className T.bytesPerElement)).1
    else ctx1
  let b := JS_GetArrayBuffer ctx2 val
  let rawBuffer := b.2.1
  let psize := b.2.2
  if pbytes_per_element = 0 then (b.1, Outcome.undefined)
  else
    let len := toInt32 (psize / pbytes_per_element)
    let ctx3 := JS_FreeValue b.1 val
    if len < 0 ∨ (rawBuffer = 0 ∧ 0 < len) then (ctx3, Outcome.undefined)
    else
      let r := (InArray.new ⟨rawBuffer, len.toNat⟩).assign ctx3.mem rawBuffer len.toNat
        T.bytesPerElement
      ({ ctx3 with mem := r.1 }, Outcome.returned r.2)

/-- The routine `js_traits<TypedArray<T, ArrayBufferMoveAllocator<T>>>::wrap`:
`return JS_EXCEPTION;`. -/
def InTypedArray.wrap (_T : ElemType) (ctx : JSContext) (_arr : InArray) : JSContext × JSValue :=
  (ctx, JS_EXCEPTION)

/-- The routine `js_traits<NonTypedArray<ArrayBufferMoveAllocator<uint8_t>>>::unwrap`. -/
def InArrayBuffer.unwrap (ctx : JSContext) (jsarr : JSValue) : JSContext × Outcome InArray :=
  let b := JS_GetArrayBuffer ctx jsarr
  let rawBuffer := b.2.1
  let psize := b.2.2
  let len := toInt32 psize
  let ctx1 :=
    if len = 0 ∧ rawBuffer = 0 then (JS_ThrowTypeError b.1 TypeError.expectsArrayBuffer).1
    else b.1
  if len < 0 ∨ (rawBuffer = 0 ∧ 0 < len) then (ctx1, Outcome.undefined)
  else
    let r := (InArray.new ⟨rawBuffer, len.toNat⟩).assign ctx1.mem rawBuffer len.toNat 1
    ({ ctx1 with mem := r.1 }, Outcome.returned r.2)

/-- The routine `js_traits<NonTypedArray<ArrayBufferMoveAllocator<uint8_t>>>::wrap`:
`return JS_EXCEPTION;`. -/
def InArrayBuffer.wrap (ctx : JSContext) (_arr : InArray) : JSContext × JSValue :=
  (ctx, JS_EXCEPTION)

/-- The routine `js_traits<NonTypedArray<Allocator>>::wrap` for an owning byte
sequence `arr`: `JS_NewArrayBufferCopy(ctx, arr.data(), arr.size())`. -/
def OutArrayBuffer.wrap (ctx : JSContext) (arr : List UInt8) : JSContext × JSValue :=
  JS_NewArrayBufferCopy ctx arr

/-- The decode routine of a kind in its aliasing form. -/
def unwrap : Kind → Nat → JSContext → JSValue → JSContext × Outcome InArray
  | Kind.arrayBuffer, _, ctx, jsarr => InArrayBuffer.unwrap ctx jsarr
  | Kind.typed T, uninit, ctx, jsarr => InTypedArray.unwrap T uninit ctx jsarr

/-- The encode routine of a kind in its aliasing form. -/
def wrap : Kind → JSContext → InArray → JSContext × JSValue
  | Kind.arrayBuffer, ctx, arr => InArrayBuffer.wrap ctx arr
  | Kind.typed T, ctx, arr => InTypedArray.wrap T ctx arr

/-- The encode routine of a kind in its owning form (`std::allocator`), when the
header has one: `js_traits<NonTypedArray<Allocator>>` covers the untyped bytes,
and no specialisation of `js_traits` covers `TypedArray<T, std::allocator<T>>`. -/
def wrapOut : Kind → Option (JSContext → List UInt8 → JSContext × JSValue)
  | Kind.arrayBuffer => some OutArrayBuffer.wrap
  | Kind.typed _ => none

end js_traits

/-! ## The resolver (lines 246-297) -/

namespace variant_traits

/-- The function `variant_traits<K, Ts...>::unwrapObj` over the candidate list
`K, Ts...`: the two partial specialisations of the header, one per form of the
head `K`.  The recursion into `Ts...` is guarded by `sizeof...(Ts) > 0`, so the
case of the empty list is never reached from a non-empty one.  The result `none`
is `std::nullopt`; a match carries the alternative of the variant that is set and
what the decode routine returned. -/
def unwrapObj : List Kind → Nat → JSContext → JSValue →
    JSContext × Option (Kind × Outcome InArray)
  | [], _, ctx, _ => (ctx, none)
  | Kind.arrayBuffer :: Ts, uninit, ctx, v =>
    let q := JS_GetArrayBuffer ctx v
    if q.2.1 ≠ 0 then
      let r := js_traits.InArrayBuffer.unwrap q.1 v
      (r.1, some (Kind.arrayBuffer, r.2))
    else if 0 < Ts.length then unwrapObj Ts uninit q.1 v
    else (q.1, none)
  | Kind.typed T :: Ts, uninit, ctx, v =>
    let q := JS_GetTypedArrayBuffer ctx v uninit
    if JS_IsException q.2.1 = false then
      let ctx1 := JS_FreeValue q.1 q.2.1
      if q.2.2 = T.bytesPerElement then
        let r := js_traits.InTypedArray.unwrap T uninit ctx1 v
        (r.1, some (Kind.typed T, r.2))
      else if 0 < Ts.length then unwrapObj Ts uninit ctx1 v
      else (ctx1, none)
    else if 0 < Ts.length then unwrapObj Ts uninit q.1 v
    else (q.1, none)

/-- The structural test of a candidate on an engine value: a non-null byte
buffer for the untyped bytes, a typed view of the declared width for a typed
kind. -/
def structuralTest (ctx : JSContext) (v : JSValue) : Kind → Bool
  | Kind.arrayBuffer => decide ((ctx.arrayBuffer v).1 ≠ 0)
  | Kind.typed T =>
    match ctx.typedArray v with
    | none => false
    | some (_, w) => decide (w = T.bytesPerElement)

/-- Find-first over the candidate list, as the specification words the resolver:
the first candidate in declaration order whose structural test succeeds is
decoded and tagged, and there is no match when no test succeeds. -/
def findFirst (Ts : List Kind) (uninit : Nat) (ctx : JSContext) (v : JSValue) :
    Option (Kind × Outcome InArray) :=
  (Ts.find? (structuralTest ctx v)).map (fun K => (K, (js_traits.unwrap K uninit ctx v).2))

end variant_traits

/-- The answer of the byte-buffer query on the buffer that a decode of kind `K`
reads: the value itself for the untyped bytes, the handle that the typed-view
query returned for a typed kind. -/
def sourceBuffer (ctx : JSContext) (v : JSValue) : Kind → Ptr × Nat
  | Kind.arrayBuffer => ctx.arrayBuffer v
  | Kind.typed _ =>
    match ctx.typedArray v with
    | none => ctx.arrayBuffer JS_EXCEPTION
    | some (buf, _) => ctx.arrayBuffer (JSValue.object buf)

/-- The type errors among a list of engine calls. -/
def thrown : List Call → List TypeError
  | [] => []
  | Call.throwTypeError e :: cs => e :: thrown cs
  | _ :: cs => thrown cs

/-- The number of releases of the value `v` among a list of engine calls. -/
def releases (v : JSValue) (cs : List Call) : Nat :=
  cs.count (Call.freeValue v)

/-! ## Concrete engine states -/

/-- An engine state with an 8-byte `ArrayBuffer` (object 1, stored at address 100),
an `Int32Array` over it (object 2) and an `Int16Array` over it (object 3).  Every
other value is neither a buffer nor a typed view. -/
def exampleCtx : JSContext :=
  { mem := fun a => UInt8.ofNat a
    arrayBuffer := fun v => if v = JSValue.object 1 then (100, 8) else (0, 0)
    typedArray := fun v =>
      if v = JSValue.object 2 then some (1, 4)
      else if v = JSValue.object 3 then some (1, 2)
      else none
    brk := 1000
    nextId := 10
    calls := [] }

/-- An engine state in which object 4 answers both queries: the byte-buffer query
with a non-null 8-byte buffer at address 200, the typed-view query with a view of
element width 2 over the buffer object 1. -/
def overlapCtx : JSContext :=
  { mem := fun a => UInt8.ofNat a
    arrayBuffer := fun v =>
      if v = JSValue.object 1 then (100, 8)
      else if v = JSValue.object 4 then (200, 8)
      else (0, 0)
    typedArray := fun v => if v = JSValue.object 4 then some (1, 2) else none
    brk := 1000
    nextId := 10
    calls := [] }

/-- An engine state with an `ArrayBuffer` of 2^32 bytes (object 1), an
`ArrayBuffer` of 2^33 bytes (object 2) and an `Int16Array` over the latter
(object 3). -/
def hugeCtx : JSContext :=
  { mem := fun a => UInt8.ofNat a
    arrayBuffer := fun v =>
      if v = JSValue.object 1 then (4096, 4294967296)
      else if v = JSValue.object 2 then (8589938688, 8589934592)
      else (0, 0)
    typedArray := fun v => if v = JSValue.object 3 then some (2, 2) else none
    brk := 17179873280
    nextId := 10
    calls := [] }

/-- An owning byte sequence of 2^32 zero bytes. -/
def bigBytes : List UInt8 := List.replicate 4294967296 0

open js_traits variant_traits

/-! ## Auxiliary facts -/

/-- The identity copy: copying a range onto itself leaves memory as it was. -/
theorem copyBytes_self (mem : Memory) (p : Ptr) (n : Nat) : copyBytes mem p p n = mem := by
  unfold copyBytes
  induction List.range n generalizing mem with
  | nil => rfl
  | cons i is ih => simp [List.foldl_cons, Function.update_eq_self, ih]

/-- Below 2^31 the conversion to `int32_t` keeps the value. -/
theorem toInt32_of_lt (x : Nat) (h : x < 2 ^ 31) : toInt32 x = (x : Int) := by
  have h32 : x % 2 ^ 32 = x := Nat.mod_eq_of_lt (by omega)
  unfold toInt32
  rw [h32, if_pos h]

/-- Reading back the bytes just stored at `p` gives those bytes. -/
theorem readBytes_writeBytes (mem : Memory) (p : Ptr) (bs : List UInt8) :
    readBytes (writeBytes mem p bs) p bs.length = bs := by
  apply List.ext_getElem
  · simp [readBytes]
  · intro i h1 h2
    simp [readBytes, writeBytes, List.getElem?_eq_getElem h2]

/-- The type errors of a concatenation of call records. -/
theorem thrown_append (a b : List Call) : thrown (a ++ b) = thrown a ++ thrown b := by
  induction a with
  | nil => rfl
  | cons c cs ih => cases c <;> simp [thrown, ih]

/-- The call `assign(p, p + n)` on a fresh vector whose allocator holds `p`: memory
is unchanged, and the vector has `n` elements that are the bytes at `p`. -/
theorem assign_new (mem : Memory) (p : Ptr) (n w : Nat) :
    ((InArray.new ⟨p, n⟩).assign mem p n w).1 = mem ∧
    ((InArray.new ⟨p, n⟩).assign mem p n w).2.size = n ∧
    ((InArray.new ⟨p, n⟩).assign mem p n w).2.alloc = ⟨p, n⟩ ∧
    ((InArray.new ⟨p, n⟩).assign mem p n w).2.bytes mem w = readBytes mem p (n * w) := by
  by_cases hn : n = 0
  · subst hn
    simp [InArray.assign, InArray.new, InArray.bytes, copyBytes, readBytes]
  · have : 0 < n := Nat.pos_of_ne_zero hn
    simp [InArray.assign, InArray.new, InArray.bytes, this, copyBytes_self,
      ArrayBufferMoveAllocator.allocate, ArrayBufferMoveAllocator.deallocate]

/-- Every declared element width is positive. -/
theorem bytesPerElement_pos (T : ElemType) : 0 < T.bytesPerElement := by
  cases T <;> decide

/-- The untyped decode on a non-null pointer and a length below 2^31. -/
theorem InArrayBuffer_unwrap_eq (ctx : JSContext) (v : JSValue)
    (hp : (ctx.arrayBuffer v).1 ≠ 0) (hn : (ctx.arrayBuffer v).2 < 2 ^ 31) :
    InArrayBuffer.unwrap ctx v =
      ({ ctx with
          calls := ctx.calls ++ [Call.getArrayBuffer v]
          mem := ((InArray.new ⟨(ctx.arrayBuffer v).1, (ctx.arrayBuffer v).2⟩).assign ctx.mem
            (ctx.arrayBuffer v).1 (ctx.arrayBuffer v).2 1).1 },
        Outcome.returned ((InArray.new ⟨(ctx.arrayBuffer v).1, (ctx.arrayBuffer v).2⟩).assign
          ctx.mem (ctx.arrayBuffer v).1 (ctx.arrayBuffer v).2 1).2) := by
  simp only [InArrayBuffer.unwrap, JS_GetArrayBuffer, toInt32_of_lt _ hn, hp, and_false,
    if_false, false_and, or_false, Int.toNat_ofNat]
  rw [if_neg (by omega)]

/-- The typed decode of a view of the declared width over a buffer with a non-null
pointer and fewer than 2^31 elements. -/
theorem InTypedArray_unwrap_eq (T : ElemType) (uninit : Nat) (ctx : JSContext) (v : JSValue)
    (buf : Nat) (hv : ctx.typedArray v = some (buf, T.bytesPerElement))
    (hp : (ctx.arrayBuffer (JSValue.object buf)).1 ≠ 0)
    (hn : (ctx.arrayBuffer (JSValue.object buf)).2 / T.bytesPerElement < 2 ^ 31) :
    InTypedArray.unwrap T uninit ctx v =
      ({ ctx with
          calls := ctx.calls ++ [Call.getTypedArrayBuffer v] ++
            [Call.getArrayBuffer (JSValue.object buf)] ++ [Call.freeValue (JSValue.object buf)]
          mem := ((InArray.new ⟨(ctx.arrayBuffer (JSValue.object buf)).1,
            (ctx.arrayBuffer (JSValue.object buf)).2 / T.bytesPerElement⟩).assign ctx.mem
            (ctx.arrayBuffer (JSValue.object buf)).1
            ((ctx.arrayBuffer (JSValue.object buf)).2 / T.bytesPerElement) T.bytesPerElement).1 },
        Outcome.returned ((InArray.new ⟨(ctx.arrayBuffer (JSValue.object buf)).1,
            (ctx.arrayBuffer (JSValue.object buf)).2 / T.bytesPerElement⟩).assign ctx.mem
            (ctx.arrayBuffer (JSValue.object buf)).1
            ((ctx.arrayBuffer (JSValue.object buf)).2 / T.bytesPerElement) T.bytesPerElement).2) := by
  have hpos := bytesPerElement_pos T
  simp only [InTypedArray.unwrap, JS_GetTypedArrayBuffer, hv, JS_IsException, JS_GetArrayBuffer,
    JS_FreeValue, toInt32_of_lt _ hn, hp, Int.toNat_ofNat, ne_eq, not_true_eq_false, if_false,
    false_and, or_false, decide_False, Bool.false_eq_true, reduceCtorEq]
  rw [if_neg (by omega), if_neg (not_lt.mpr (Int.ofNat_nonneg _))]

/-- What a decode returns does not depend on the call record of the context. -/
theorem unwrap_snd_calls (K : Kind) (uninit : Nat) (ctx : JSContext) (v : JSValue)
    (cs : List Call) :
    (js_traits.unwrap K uninit { ctx with calls := cs } v).2 = (js_traits.unwrap K uninit ctx v).2 := by
  cases K with
  | arrayBuffer =>
    simp only [js_traits.unwrap, InArrayBuffer.unwrap, JS_GetArrayBuffer, JS_ThrowTypeError]
    split_ifs <;> rfl
  | typed T =>
    simp only [js_traits.unwrap, InTypedArray.unwrap, JS_GetTypedArrayBuffer, JS_GetArrayBuffer,
      JS_ThrowTypeError, JS_FreeValue]
    cases h : ctx.typedArray v with
    | none => simp only []; split_ifs <;> rfl
    | some bw => simp only []; split_ifs <;> rfl

/-- A decode of a value that passes the structural test raises no type error. -/
theorem unwrap_thrown_of_test (K : Kind) (uninit : Nat) (ctx : JSContext) (v : JSValue)
    (h : structuralTest ctx v K = true) :
    thrown (js_traits.unwrap K uninit ctx v).1.calls = thrown ctx.calls := by
  cases K with
  | arrayBuffer =>
    have hp : (ctx.arrayBuffer v).1 ≠ 0 := by simpa [structuralTest] using h
    simp only [js_traits.unwrap, InArrayBuffer.unwrap, JS_GetArrayBuffer, hp, and_false, if_false]
    split_ifs <;> simp [thrown_append, thrown]
  | typed T =>
    cases hv : ctx.typedArray v with
    | none => simp [structuralTest, hv] at h
    | some bw =>
      obtain ⟨buf, w⟩ := bw
      have hw : w = T.bytesPerElement := by simpa [structuralTest, hv] using h
      subst hw
      simp only [js_traits.unwrap, InTypedArray.unwrap, JS_GetTypedArrayBuffer, hv, JS_IsException,
        JS_GetArrayBuffer, JS_FreeValue, ne_eq, not_true_eq_false, if_false, decide_False,
        Bool.false_eq_true, reduceCtorEq]
      split_ifs <;> simp [thrown_append, thrown]

/-- The resolver, from any call record: its result is the find-first, and it raises
no type error. -/
theorem unwrapObj_aux (Ts : List Kind) (uninit : Nat) (v : JSValue) :
    ∀ (ctx : JSContext) (cs : List Call),
      (unwrapObj Ts uninit { ctx with calls := cs } v).2 = findFirst Ts uninit ctx v ∧
      thrown (unwrapObj Ts uninit { ctx with calls := cs } v).1.calls = thrown cs := by
  induction Ts with
  | nil => intro ctx cs; exact ⟨rfl, rfl⟩
  | cons K Ts ih =>
    intro ctx cs
    cases K with
    | arrayBuffer =>
      by_cases hp : (ctx.arrayBuffer v).1 = 0
      · have ht : structuralTest ctx v Kind.arrayBuffer = false := by simp [structuralTest, hp]
        cases Ts with
        | nil =>
          simp [unwrapObj, JS_GetArrayBuffer, hp, findFirst, List.find?, ht, thrown_append, thrown]
        | cons K2 Ts2 =>
          have := ih ctx (cs ++ [Call.getArrayBuffer v])
          simp only [unwrapObj, JS_GetArrayBuffer, hp, ne_eq, not_true_eq_false, if_false,
            List.length_cons, Nat.zero_lt_succ, if_true]
          simp only [findFirst, List.find?, ht] at this ⊢
          simpa [thrown_append, thrown] using this
      · have ht : structuralTest ctx v Kind.arrayBuffer = true := by simp [structuralTest, hp]
        have h1 := unwrap_snd_calls Kind.arrayBuffer uninit ctx v (cs ++ [Call.getArrayBuffer v])
        have h2 := unwrap_thrown_of_test Kind.arrayBuffer uninit
          { ctx with calls := cs ++ [Call.getArrayBuffer v] } v ht
        simp only [js_traits.unwrap] at h1 h2
        simp only [unwrapObj, JS_GetArrayBuffer, hp, ne_eq, not_false_eq_true, if_true, findFirst,
          List.find?, ht, Option.map_some', js_traits.unwrap, h1, h2]
        simp [thrown_append, thrown]
    | typed T =>
      cases hv : ctx.typedArray v with
      | none =>
        have ht : structuralTest ctx v (Kind.typed T) = false := by simp [structuralTest, hv]
        cases Ts with
        | nil =>
          simp [unwrapObj, JS_GetTypedArrayBuffer, hv, JS_IsException, JS_EXCEPTION, findFirst,
            List.find?, ht, thrown_append, thrown]
        | cons K2 Ts2 =>
          have := ih ctx (cs ++ [Call.getTypedArrayBuffer v])
          simp only [unwrapObj, JS_GetTypedArrayBuffer, hv, JS_IsException, JS_EXCEPTION,
            decide_True, Bool.true_eq_false, if_false, List.length_cons, Nat.zero_lt_succ, if_true]
          simp only [findFirst, List.find?, ht] at this ⊢
          simpa [thrown_append, thrown] using this
      | some bw =>
        obtain ⟨buf, w⟩ := bw
        by_cases hw : w = T.bytesPerElement
        · have ht : structuralTest ctx v (Kind.typed T) = true := by simp [structuralTest, hv, hw]
          have h1 := unwrap_snd_calls (Kind.typed T) uninit ctx v
            (cs ++ [Call.getTypedArrayBuffer v] ++ [Call.freeValue (JSValue.object buf)])
          have h2 := unwrap_thrown_of_test (Kind.typed T) uninit
            { ctx with calls := cs ++ [Call.getTypedArrayBuffer v] ++
                [Call.freeValue (JSValue.object buf)] } v ht
          simp only [js_traits.unwrap] at h1 h2
          simp only [unwrapObj, JS_GetTypedArrayBuffer, hv, JS_IsException, JS_FreeValue, hw,
            decide_False, if_true, findFirst, List.find?, ht, Option.map_some', js_traits.unwrap,
            h1, h2, reduceCtorEq]
          simp [thrown_append, thrown]
        · have ht : structuralTest ctx v (Kind.typed T) = false := by simp [structuralTest, hv, hw]
          cases Ts with
          | nil =>
            simp [unwrapObj, JS_GetTypedArrayBuffer, hv, JS_IsException, JS_FreeValue, hw, findFirst,
              List.find?, ht, thrown_append, thrown]
          | cons K2 Ts2 =>
            have := ih ctx (cs ++ [Call.getTypedArrayBuffer v] ++
              [Call.freeValue (JSValue.object buf)])
            simp only [unwrapObj, JS_GetTypedArrayBuffer, hv, JS_IsException, JS_FreeValue, hw,
              decide_False, if_true, if_false, List.length_cons, Nat.zero_lt_succ, reduceCtorEq]
            simp only [findFirst, List.find?, ht] at this ⊢
            simpa [thrown_append, thrown] using this

/-- A decode of a value that fails the structural test raises a type error, or its
behaviour is undefined. -/
theorem unwrap_of_test_false (K : Kind) (uninit : Nat) (ctx : JSContext) (v : JSValue)
    (h : structuralTest ctx v K = false) :
    (js_traits.unwrap K uninit ctx v).2 = Outcome.undefined ∨
    (thrown ctx.calls).length < (thrown (js_traits.unwrap K uninit ctx v).1.calls).length := by
  cases K with
  | arrayBuffer =>
    have hp : (ctx.arrayBuffer v).1 = 0 := by simpa [structuralTest] using h
    simp only [js_traits.unwrap, InArrayBuffer.unwrap, JS_GetArrayBuffer, JS_ThrowTypeError, hp,
      and_true, true_and]
    by_cases h0 : toInt32 (ctx.arrayBuffer v).2 = 0
    · right
      simp [h0, thrown_append, thrown]
    · left
      have : toInt32 (ctx.arrayBuffer v).2 < 0 ∨ 0 < toInt32 (ctx.arrayBuffer v).2 := by omega
      simp [this]
  | typed T =>
    cases hv : ctx.typedArray v with
    | none =>
      right
      simp only [js_traits.unwrap, InTypedArray.unwrap, JS_GetTypedArrayBuffer, hv, JS_IsException,
        JS_EXCEPTION, JS_GetArrayBuffer, JS_FreeValue, JS_ThrowTypeError, decide_True, if_true]
      split_ifs <;> simp [thrown_append, thrown]
    | some bw =>
      obtain ⟨buf, w⟩ := bw
      have hw : w ≠ T.bytesPerElement := by simpa [structuralTest, hv] using h
      right
      simp only [js_traits.unwrap, InTypedArray.unwrap, JS_GetTypedArrayBuffer, hv, JS_IsException,
        JS_GetArrayBuffer, JS_FreeValue, JS_ThrowTypeError, ne_eq, hw, not_false_eq_true, if_true]
      split_ifs <;> simp [thrown_append, thrown]


/-- The length of `bigBytes`. -/
theorem bigBytes_length : bigBytes.length = 4294967296 := by
  unfold bigBytes
  exact List.length_replicate _ _

/-! ## The allocator -/

/-- C6: for an allocator built from the pointer `p` and the count `c`, the call
`allocate(n, hint)` returns exactly `p` for every requested count `n` and every
hint, the allocator is unchanged by the call, and `max_size()` still reports `c`. -/
theorem allocate_returns_stored_pointer (p : Ptr) (c n : Nat) (hint : Ptr) :
    ((ArrayBufferMoveAllocator.mk p c).allocate n hint).2 = p ∧
    ((ArrayBufferMoveAllocator.mk p c).allocate n hint).1 = ArrayBufferMoveAllocator.mk p c ∧
    ((ArrayBufferMoveAllocator.mk p c).allocate n hint).1.max_size = c :=
  ⟨rfl, rfl, rfl⟩

/-! ## Encode -/

/-- C5: for every kind and every aliasing sequence, `wrap` returns the exception
value of the engine and leaves the context as it was: no engine call is made, so
no buffer is allocated and nothing is copied. -/
theorem wrap_aliasing_returns_exception (K : Kind) (ctx : JSContext) (arr : InArray) :
    (js_traits.wrap K ctx arr).2 = JS_EXCEPTION ∧
    JS_IsException (js_traits.wrap K ctx arr).2 = true ∧
    (js_traits.wrap K ctx arr).1 = ctx := by
  cases K <;> exact ⟨rfl, rfl, rfl⟩

/-- C1 (as stated, refuted): the typed kinds have no encode routine for an owning
sequence; the bytes of an owning `Int16Array` sent through the one encode routine
of the header come back as an `ArrayBuffer`, on which the `Int16Array` decode
raises the type error; and an owning sequence of 2^32 bytes decodes to a sequence
of 0 elements. -/
theorem roundtrip_all_kinds_fails :
    js_traits.wrapOut (Kind.typed ElemType.int16) = none ∧
    thrown (InTypedArray.unwrap ElemType.int16 2 (OutArrayBuffer.wrap exampleCtx [1, 0, 2, 0]).1
        (OutArrayBuffer.wrap exampleCtx [1, 0, 2, 0]).2).1.calls =
      [TypeError.expectsObject "Int16Array"] ∧
    bigBytes.length = 4294967296 ∧
    (InArrayBuffer.unwrap (OutArrayBuffer.wrap exampleCtx bigBytes).1
        (OutArrayBuffer.wrap exampleCtx bigBytes).2).2 =
      Outcome.returned ⟨0, 0, 0, ⟨1001, 0⟩⟩ := by
  refine ⟨rfl, by decide, bigBytes_length, ?_⟩
  have h0 : toInt32 4294967296 = 0 := by decide
  simp only [InArrayBuffer.unwrap, OutArrayBuffer.wrap, JS_NewArrayBufferCopy, JS_GetArrayBuffer,
    if_true, bigBytes_length, h0]
  simp [exampleCtx, InArray.assign, InArray.new]

/-- C1 (amended): for the untyped bytes and every `N < 2^31`, encoding an owning
sequence of `N` bytes with `js_traits<NonTypedArray<Allocator>>::wrap` and decoding
the resulting engine value with `js_traits<ArrayBuffer>::unwrap` returns a
sequence of exactly `N` elements whose bytes are the bytes of the original, and no
type error is raised. -/
theorem roundtrip_untyped_bytes (ctx : JSContext) (arr : List UInt8) (hN : arr.length < 2 ^ 31) :
    js_traits.wrapOut Kind.arrayBuffer = some OutArrayBuffer.wrap ∧
    ∃ ctx' out,
      InArrayBuffer.unwrap (OutArrayBuffer.wrap ctx arr).1 (OutArrayBuffer.wrap ctx arr).2 =
        (ctx', Outcome.returned out) ∧
      out.size = arr.length ∧ out.bytes ctx'.mem 1 = arr ∧
      thrown ctx'.calls = thrown ctx.calls := by
  refine ⟨rfl, ?_⟩
  have hb : (OutArrayBuffer.wrap ctx arr).1.arrayBuffer (OutArrayBuffer.wrap ctx arr).2 =
      (ctx.brk + 1, arr.length) := by
    simp [OutArrayBuffer.wrap, JS_NewArrayBufferCopy]
  have hm : (OutArrayBuffer.wrap ctx arr).1.mem = writeBytes ctx.mem (ctx.brk + 1) arr := rfl
  have hc : (OutArrayBuffer.wrap ctx arr).1.calls =
      ctx.calls ++ [Call.newArrayBufferCopy arr.length] := rfl
  have heq := InArrayBuffer_unwrap_eq (OutArrayBuffer.wrap ctx arr).1 (OutArrayBuffer.wrap ctx arr).2
    (by rw [hb]; exact Nat.succ_ne_zero _) (by rw [hb]; exact hN)
  obtain ⟨h1, h2, _, h4⟩ := assign_new (writeBytes ctx.mem (ctx.brk + 1) arr) (ctx.brk + 1)
    arr.length 1
  rw [hb, hm] at heq
  refine ⟨_, _, heq, h2, ?_, ?_⟩
  · simp only [h1, h4, Nat.mul_one, readBytes_writeBytes]
  · simp [hc, thrown_append, thrown]

/-- Witness of C1 (amended): the round trip of the three bytes 7, 8, 9. -/
theorem roundtrip_untyped_bytes_witness :
    ([7, 8, 9] : List UInt8).length < 2 ^ 31 ∧
    ∃ ctx' out,
      InArrayBuffer.unwrap (OutArrayBuffer.wrap exampleCtx [7, 8, 9]).1
          (OutArrayBuffer.wrap exampleCtx [7, 8, 9]).2 = (ctx', Outcome.returned out) ∧
      out.size = 3 ∧ out.bytes ctx'.mem 1 = [7, 8, 9] ∧
      thrown ctx'.calls = thrown exampleCtx.calls :=
  ⟨by decide, (roundtrip_untyped_bytes exampleCtx [7, 8, 9] (by decide)).2⟩

/-! ## Decode: the failing paths -/

/-- The width-mismatch path in general: for every typed kind and every typed view
whose reported width `w` differs from the declared width, the routine releases
the handle, raises the type error, queries the handle and releases it again. -/
theorem InTypedArray_unwrap_width_mismatch (T : ElemType) (uninit : Nat) (ctx : JSContext)
    (v : JSValue) (buf w : Nat) (hv : ctx.typedArray v = some (buf, w))
    (hw : w ≠ T.bytesPerElement) (h0 : w ≠ 0) :
    (InTypedArray.unwrap T uninit ctx v).1.calls =
      ctx.calls ++ [Call.getTypedArrayBuffer v, Call.freeValue (JSValue.object buf),
        Call.throwTypeError (TypeError.expectsBufferOfSize T.className T.bytesPerElement),
        Call.getArrayBuffer (JSValue.object buf), Call.freeValue (JSValue.object buf)] ∧
    ((ctx.arrayBuffer (JSValue.object buf)).1 ≠ 0 →
      (ctx.arrayBuffer (JSValue.object buf)).2 / w < 2 ^ 31 →
      ∃ arr, (InTypedArray.unwrap T uninit ctx v).2 = Outcome.returned arr ∧
        arr.size = (ctx.arrayBuffer (JSValue.object buf)).2 / w) := by
  constructor
  · simp only [InTypedArray.unwrap, JS_GetTypedArrayBuffer, hv, JS_IsException, JS_GetArrayBuffer,
      JS_FreeValue, JS_ThrowTypeError, ne_eq, hw, h0, not_false_eq_true, if_true, if_false,
      decide_False, Bool.false_eq_true, reduceCtorEq]
    split_ifs <;> simp
  · intro hp hn
    obtain ⟨_, h2, _, _⟩ := assign_new ctx.mem (ctx.arrayBuffer (JSValue.object buf)).1
      ((ctx.arrayBuffer (JSValue.object buf)).2 / w) T.bytesPerElement
    refine ⟨_, ?_, h2⟩
    simp only [InTypedArray.unwrap, JS_GetTypedArrayBuffer, hv, JS_IsException, JS_GetArrayBuffer,
      JS_FreeValue, JS_ThrowTypeError, toInt32_of_lt _ hn, hp, h0, hw, Int.toNat_ofNat, ne_eq,
      not_false_eq_true, if_true, if_false, false_and, or_false, decide_False,
      Bool.false_eq_true, reduceCtorEq]
    rw [if_neg (not_lt.mpr (Int.ofNat_nonneg _))]

/-- The type-mismatch path in general: for every typed kind and every value that
is no typed view, the routine raises the type error, compares the unset width
`uninit` with the declared width, queries the byte buffer of the exception value
and releases the exception value. -/
theorem InTypedArray_unwrap_type_mismatch (T : ElemType) (uninit : Nat) (ctx : JSContext)
    (v : JSValue) (hv : ctx.typedArray v = none) (h0 : uninit ≠ 0) :
    (InTypedArray.unwrap T uninit ctx v).1.calls =
      ctx.calls ++ [Call.getTypedArrayBuffer v,
        Call.throwTypeError (TypeError.expectsObject T.className)] ++
      (if uninit ≠ T.bytesPerElement then
        [Call.freeValue JSValue.exception,
         Call.throwTypeError (TypeError.expectsBufferOfSize T.className T.bytesPerElement)]
       else []) ++
      [Call.getArrayBuffer JSValue.exception, Call.freeValue JSValue.exception] ∧
    (ctx.arrayBuffer JSValue.exception = (0, 0) →
      (InTypedArray.unwrap T uninit ctx v).2 = Outcome.returned ⟨0, 0, 0, ⟨0, 0⟩⟩) := by
  constructor
  · simp only [InTypedArray.unwrap, JS_GetTypedArrayBuffer, hv, JS_IsException, JS_EXCEPTION,
      JS_GetArrayBuffer, JS_FreeValue, JS_ThrowTypeError, h0, decide_True, if_true, if_false]
    split_ifs <;> simp
  · intro hb
    have hz : toInt32 0 = 0 := by decide
    have hT : T.bytesPerElement ≠ 0 := (bytesPerElement_pos T).ne'
    by_cases hu : uninit = T.bytesPerElement <;>
      simp [InTypedArray.unwrap, JS_GetTypedArrayBuffer, hv, JS_IsException, JS_EXCEPTION,
        JS_GetArrayBuffer, JS_FreeValue, JS_ThrowTypeError, h0, hb, hz, hu, hT, InArray.assign,
        InArray.new]

/-- The no-buffer path in general: when the byte-buffer query yields the null
pointer and length zero, the routine raises the type error and returns an empty
sequence. -/
theorem InArrayBuffer_unwrap_no_buffer (ctx : JSContext) (v : JSValue)
    (hb : ctx.arrayBuffer v = (0, 0)) :
    (InArrayBuffer.unwrap ctx v).1.calls =
      ctx.calls ++ [Call.getArrayBuffer v, Call.throwTypeError TypeError.expectsArrayBuffer] ∧
    (InArrayBuffer.unwrap ctx v).2 = Outcome.returned ⟨0, 0, 0, ⟨0, 0⟩⟩ := by
  have hz : toInt32 0 = 0 := by decide
  constructor
  · simp [InArrayBuffer.unwrap, JS_GetArrayBuffer, JS_ThrowTypeError, hb, hz]
  · simp [InArrayBuffer.unwrap, JS_GetArrayBuffer, JS_ThrowTypeError, hb, hz, InArray.assign,
      InArray.new]

/-- The untyped decode raises its type error exactly when the pointer is null and
the int32 length `len` of the routine is zero. -/
theorem InArrayBuffer_unwrap_thrown (ctx : JSContext) (v : JSValue) :
    thrown (InArrayBuffer.unwrap ctx v).1.calls =
      thrown ctx.calls ++
        (if toInt32 (ctx.arrayBuffer v).2 = 0 ∧ (ctx.arrayBuffer v).1 = 0 then
          [TypeError.expectsArrayBuffer] else []) := by
  simp only [InArrayBuffer.unwrap, JS_GetArrayBuffer, JS_ThrowTypeError]
  split_ifs <;> simp_all [thrown_append, thrown]

/-- The untyped decode on a non-null pointer and a non-negative int32 length `len`
returns a sequence of `len` elements and raises no error. -/
theorem InArrayBuffer_unwrap_nonnull (ctx : JSContext) (v : JSValue)
    (hp : (ctx.arrayBuffer v).1 ≠ 0) (hl : 0 ≤ toInt32 (ctx.arrayBuffer v).2) :
    (∃ arr, (InArrayBuffer.unwrap ctx v).2 = Outcome.returned arr ∧
      arr.size = (toInt32 (ctx.arrayBuffer v).2).toNat) ∧
    thrown (InArrayBuffer.unwrap ctx v).1.calls = thrown ctx.calls := by
  constructor
  · obtain ⟨_, h2, _, _⟩ := assign_new ctx.mem (ctx.arrayBuffer v).1
      (toInt32 (ctx.arrayBuffer v).2).toNat 1
    refine ⟨_, ?_, h2⟩
    simp only [InArrayBuffer.unwrap, JS_GetArrayBuffer, hp, and_false, if_false, false_and,
      or_false]
    rw [if_neg (not_lt.mpr hl)]
  · rw [InArrayBuffer_unwrap_thrown]
    simp [hp]

/-- C2 (the code at the failing input): `js_traits<Int16Array>::unwrap` on an
`Int32Array` (a typed view of element width 4, where `Int16Array` declares 2) over
an 8-byte buffer.  The handle of the buffer is released, the type error is raised,
and the routine runs on: it queries the released handle, releases it a second
time and returns a sequence of two elements. -/
theorem unwrap_width_mismatch_falls_through :
    exampleCtx.typedArray (JSValue.object 2) = some (1, 4) ∧
    ElemType.int16.bytesPerElement = 2 ∧
    (InTypedArray.unwrap ElemType.int16 0 exampleCtx (JSValue.object 2)).1.calls =
      [Call.getTypedArrayBuffer (JSValue.object 2),
       Call.freeValue (JSValue.object 1),
       Call.throwTypeError (TypeError.expectsBufferOfSize "Int16Array" 2),
       Call.getArrayBuffer (JSValue.object 1),
       Call.freeValue (JSValue.object 1)] ∧
    releases (JSValue.object 1)
      (InTypedArray.unwrap ElemType.int16 0 exampleCtx (JSValue.object 2)).1.calls = 2 ∧
    (InTypedArray.unwrap ElemType.int16 0 exampleCtx (JSValue.object 2)).2 =
      Outcome.returned ⟨100, 2, 2, ⟨100, 2⟩⟩ := by
  decide

/-- C3 (the code at the failing input): `js_traits<Int16Array>::unwrap` on a value
that is not a typed view.  The type error is raised and the routine runs on: it
reads the unset width (the calls differ with the content `2` or `4` of the unset
local), queries the byte buffer of the exception value, releases the exception
value and returns an empty sequence. -/
theorem unwrap_type_mismatch_falls_through :
    exampleCtx.typedArray (JSValue.object 5) = none ∧
    (InTypedArray.unwrap ElemType.int16 2 exampleCtx (JSValue.object 5)).1.calls =
      [Call.getTypedArrayBuffer (JSValue.object 5),
       Call.throwTypeError (TypeError.expectsObject "Int16Array"),
       Call.getArrayBuffer JSValue.exception,
       Call.freeValue JSValue.exception] ∧
    (InTypedArray.unwrap ElemType.int16 4 exampleCtx (JSValue.object 5)).1.calls =
      [Call.getTypedArrayBuffer (JSValue.object 5),
       Call.throwTypeError (TypeError.expectsObject "Int16Array"),
       Call.freeValue JSValue.exception,
       Call.throwTypeError (TypeError.expectsBufferOfSize "Int16Array" 2),
       Call.getArrayBuffer JSValue.exception,
       Call.freeValue JSValue.exception] ∧
    (InTypedArray.unwrap ElemType.int16 2 exampleCtx (JSValue.object 5)).2 =
      Outcome.returned ⟨0, 0, 0, ⟨0, 0⟩⟩ ∧
    (InTypedArray.unwrap ElemType.int16 4 exampleCtx (JSValue.object 5)).2 =
      Outcome.returned ⟨0, 0, 0, ⟨0, 0⟩⟩ := by
  decide

/-- C4 (the code at the failing input): `js_traits<ArrayBuffer>::unwrap` on a value
for which the byte-buffer query yields the null pointer and length zero.  The type
error is raised and the routine runs on: it returns an empty sequence. -/
theorem unwrap_no_buffer_falls_through :
    exampleCtx.arrayBuffer (JSValue.object 5) = (0, 0) ∧
    (InArrayBuffer.unwrap exampleCtx (JSValue.object 5)).1.calls =
      [Call.getArrayBuffer (JSValue.object 5),
       Call.throwTypeError TypeError.expectsArrayBuffer] ∧
    (InArrayBuffer.unwrap exampleCtx (JSValue.object 5)).2 =
      Outcome.returned ⟨0, 0, 0, ⟨0, 0⟩⟩ := by
  decide

/-! ## Decode: the element count -/

/-- C9 (as stated, refuted): the decode of an `ArrayBuffer` of 2^32 bytes raises no
error and returns a sequence of 0 elements with 0 as the count of its allocator,
and so does the `Int16Array` decode of a view over 2^33 bytes, where the quotient
is 2^32. -/
theorem decoded_count_narrowed :
    sourceBuffer hugeCtx (JSValue.object 1) Kind.arrayBuffer = (4096, 4294967296) ∧
    4294967296 % Kind.arrayBuffer.width = 0 ∧
    4294967296 / Kind.arrayBuffer.width = 4294967296 ∧
    thrown (InArrayBuffer.unwrap hugeCtx (JSValue.object 1)).1.calls = [] ∧
    (InArrayBuffer.unwrap hugeCtx (JSValue.object 1)).2 =
      Outcome.returned ⟨0, 0, 0, ⟨4096, 0⟩⟩ ∧
    sourceBuffer hugeCtx (JSValue.object 3) (Kind.typed ElemType.int16) =
      (8589938688, 8589934592) ∧
    8589934592 % (Kind.typed ElemType.int16).width = 0 ∧
    8589934592 / (Kind.typed ElemType.int16).width = 4294967296 ∧
    thrown (InTypedArray.unwrap ElemType.int16 0 hugeCtx (JSValue.object 3)).1.calls = [] ∧
    (InTypedArray.unwrap ElemType.int16 0 hugeCtx (JSValue.object 3)).2 =
      Outcome.returned ⟨0, 0, 0, ⟨8589938688, 0⟩⟩ := by
  decide

/-- C9 (amended): when the byte length of the source buffer divided by the element
width of the kind is below 2^31, every decode that returns a sequence without
raising a type error returns one whose element count, and whose allocator count,
is that quotient; and the decode does return such a sequence whenever the
structural test of the kind succeeds on a buffer with a non-null pointer. -/
theorem decoded_count_below_int32 (K : Kind) (uninit : Nat) (ctx : JSContext) (v : JSValue)
    (hq : (sourceBuffer ctx v K).2 / K.width < 2 ^ 31) :
    (∀ ctx' arr, js_traits.unwrap K uninit ctx v = (ctx', Outcome.returned arr) →
      thrown ctx'.calls = thrown ctx.calls →
      arr.size = (sourceBuffer ctx v K).2 / K.width ∧
      arr.alloc.max_size = (sourceBuffer ctx v K).2 / K.width) ∧
    (structuralTest ctx v K = true → (sourceBuffer ctx v K).1 ≠ 0 →
      ∃ ctx' arr, js_traits.unwrap K uninit ctx v = (ctx', Outcome.returned arr) ∧
        thrown ctx'.calls = thrown ctx.calls) := by
  constructor
  · intro ctx' arr hret hthrown
    cases ht : structuralTest ctx v K with
    | false =>
      rcases unwrap_of_test_false K uninit ctx v ht with hu | hl
      · rw [hret] at hu; cases hu
      · rw [hret, hthrown] at hl; exact absurd hl (lt_irrefl _)
    | true =>
      cases K with
      | arrayBuffer =>
        have hp : (ctx.arrayBuffer v).1 ≠ 0 := by simpa [structuralTest] using ht
        have hq' : (ctx.arrayBuffer v).2 < 2 ^ 31 := by
          simpa [sourceBuffer, Kind.width] using hq
        have heq := InArrayBuffer_unwrap_eq ctx v hp hq'
        obtain ⟨_, h2, h3, _⟩ := assign_new ctx.mem (ctx.arrayBuffer v).1 (ctx.arrayBuffer v).2 1
        simp only [js_traits.unwrap] at hret
        rw [heq] at hret
        have harr := (Outcome.returned.inj (Prod.mk.inj hret).2)
        subst harr
        simp [sourceBuffer, Kind.width, ArrayBufferMoveAllocator.max_size, h2, h3]
      | typed T =>
        cases hv : ctx.typedArray v with
        | none => simp [structuralTest, hv] at ht
        | some bw =>
          obtain ⟨buf, w⟩ := bw
          have hw : w = T.bytesPerElement := by simpa [structuralTest, hv] using ht
          subst hw
          have hq' : (ctx.arrayBuffer (JSValue.object buf)).2 / T.bytesPerElement < 2 ^ 31 := by
            simpa [sourceBuffer, Kind.width, hv] using hq
          have hne : T.bytesPerElement ≠ 0 := Nat.pos_iff_ne_zero.mp (bytesPerElement_pos T)
          obtain ⟨_, h2, h3, _⟩ := assign_new ctx.mem (ctx.arrayBuffer (JSValue.object buf)).1
            ((ctx.arrayBuffer (JSValue.object buf)).2 / T.bytesPerElement) T.bytesPerElement
          simp only [js_traits.unwrap, InTypedArray.unwrap, JS_GetTypedArrayBuffer, hv,
            JS_IsException, JS_GetArrayBuffer, JS_FreeValue, toInt32_of_lt _ hq', Int.toNat_ofNat,
            ne_eq, not_true_eq_false, if_false, decide_False, Bool.false_eq_true, reduceCtorEq,
            hne] at hret
          split_ifs at hret with hc
          · cases (Prod.mk.inj hret).2
          · have harr := (Outcome.returned.inj (Prod.mk.inj hret).2)
            subst harr
            simp [sourceBuffer, Kind.width, hv, ArrayBufferMoveAllocator.max_size, h2, h3]
  · intro ht hp
    refine ⟨(js_traits.unwrap K uninit ctx v).1, ?_⟩
    cases K with
    | arrayBuffer =>
      have hq' : (ctx.arrayBuffer v).2 < 2 ^ 31 := by
        simpa [sourceBuffer, Kind.width] using hq
      have heq := InArrayBuffer_unwrap_eq ctx v hp hq'
      exact ⟨_, by simp only [js_traits.unwrap]; rw [heq],
        unwrap_thrown_of_test Kind.arrayBuffer uninit ctx v ht⟩
    | typed T =>
      cases hv : ctx.typedArray v with
      | none => simp [structuralTest, hv] at ht
      | some bw =>
        obtain ⟨buf, w⟩ := bw
        have hw : w = T.bytesPerElement := by simpa [structuralTest, hv] using ht
        subst hw
        have hq' : (ctx.arrayBuffer (JSValue.object buf)).2 / T.bytesPerElement < 2 ^ 31 := by
          simpa [sourceBuffer, Kind.width, hv] using hq
        have hp' : (ctx.arrayBuffer (JSValue.object buf)).1 ≠ 0 := by
          simpa [sourceBuffer, hv] using hp
        have heq := InTypedArray_unwrap_eq T uninit ctx v buf hv hp' hq'
        exact ⟨_, by simp only [js_traits.unwrap]; rw [heq],
          unwrap_thrown_of_test (Kind.typed T) uninit ctx v ht⟩

/-- Witness of C9 (amended): the `Int16Array` view over the 8-byte buffer decodes
to 4 elements. -/
theorem decoded_count_below_int32_witness :
    (sourceBuffer exampleCtx (JSValue.object 3) (Kind.typed ElemType.int16)).2 /
      (Kind.typed ElemType.int16).width < 2 ^ 31 ∧
    structuralTest exampleCtx (JSValue.object 3) (Kind.typed ElemType.int16) = true ∧
    (sourceBuffer exampleCtx (JSValue.object 3) (Kind.typed ElemType.int16)).1 ≠ 0 ∧
    ∃ ctx' arr,
      js_traits.unwrap (Kind.typed ElemType.int16) 0 exampleCtx (JSValue.object 3) =
        (ctx', Outcome.returned arr) ∧
      thrown ctx'.calls = thrown exampleCtx.calls ∧
      arr.size = 4 ∧ arr.alloc.max_size = 4 := by
  have h := decoded_count_below_int32 (Kind.typed ElemType.int16) 0 exampleCtx (JSValue.object 3)
    (by decide)
  obtain ⟨ctx', arr, he, ht⟩ := h.2 (by decide) (by decide)
  exact ⟨by decide, by decide, by decide, ctx', arr, he, ht, h.1 ctx' arr he ht⟩

/-! ## The resolver -/

/-- C8: the resolver is a find-first over the candidate list.  Its result is the
decode of the first candidate, in declaration order, whose structural test
succeeds, tagged with that alternative; it is `std::nullopt` exactly when no
candidate passes its test; and the resolver raises no type error. -/
theorem unwrapObj_find_first (Ts : List Kind) (uninit : Nat) (ctx : JSContext) (v : JSValue) :
    (unwrapObj Ts uninit ctx v).2 = findFirst Ts uninit ctx v ∧
    ((unwrapObj Ts uninit ctx v).2 = none ↔ ∀ K ∈ Ts, structuralTest ctx v K = false) ∧
    thrown (unwrapObj Ts uninit ctx v).1.calls = thrown ctx.calls := by
  have h := unwrapObj_aux Ts uninit v ctx ctx.calls
  have hctx : ({ ctx with calls := ctx.calls } : JSContext) = ctx := rfl
  rw [hctx] at h
  refine ⟨h.1, ?_, h.2⟩
  rw [h.1, findFirst, Option.map_eq_none', List.find?_eq_none]
  constructor
  · intro hall K hK
    simpa using hall K hK
  · intro hall K hK
    simp [hall K hK]

/-- C7 (as stated, refuted): with the candidates `ArrayBuffer, Int16Array,
Int32Array` and a value that is a typed view of width 2 and also answers the
byte-buffer query with a non-null pointer, the resolver returns the `ArrayBuffer`
alternative. -/
theorem resolver_example_prefers_untyped :
    overlapCtx.typedArray (JSValue.object 4) = some (1, 2) ∧
    (overlapCtx.arrayBuffer (JSValue.object 4)).1 ≠ 0 ∧
    (unwrapObj [Kind.arrayBuffer, Kind.typed ElemType.int16, Kind.typed ElemType.int32] 0
        overlapCtx (JSValue.object 4)).2 =
      some (Kind.arrayBuffer, Outcome.returned ⟨200, 8, 8, ⟨200, 8⟩⟩) := by
  decide

/-- C7 (amended): with the candidates `ArrayBuffer, Int16Array, Int32Array` and a
value that is a typed view of width 2, the resolver returns the `Int16Array`
alternative, holding the `Int16Array` decode of the value, when the byte-buffer
query on the value yields the null pointer; when that query yields a non-null
pointer it returns the `ArrayBuffer` alternative. -/
theorem resolver_example_by_buffer_probe (uninit : Nat) (ctx : JSContext) (v : JSValue)
    (buf : Nat) (hv : ctx.typedArray v = some (buf, 2)) :
    ((ctx.arrayBuffer v).1 = 0 →
      (unwrapObj [Kind.arrayBuffer, Kind.typed ElemType.int16, Kind.typed ElemType.int32] uninit
          ctx v).2 =
        some (Kind.typed ElemType.int16, (InTypedArray.unwrap ElemType.int16 uninit ctx v).2)) ∧
    ((ctx.arrayBuffer v).1 ≠ 0 →
      (unwrapObj [Kind.arrayBuffer, Kind.typed ElemType.int16, Kind.typed ElemType.int32] uninit
          ctx v).2 =
        some (Kind.arrayBuffer, (InArrayBuffer.unwrap ctx v).2)) := by
  have h := (unwrapObj_aux [Kind.arrayBuffer, Kind.typed ElemType.int16,
    Kind.typed ElemType.int32] uninit v ctx ctx.calls).1
  have hctx : ({ ctx with calls := ctx.calls } : JSContext) = ctx := rfl
  rw [hctx] at h
  constructor
  · intro hp
    rw [h]
    simp [findFirst, List.find?, structuralTest, hp, hv, ElemType.bytesPerElement,
      js_traits.unwrap]
  · intro hp
    rw [h]
    simp [findFirst, List.find?, structuralTest, hp, js_traits.unwrap]

/-- Witness of C7 (amended): the `Int16Array` view of the example state, whose
byte-buffer query yields the null pointer, resolves to the `Int16Array`
alternative with 4 elements. -/
theorem resolver_example_by_buffer_probe_witness :
    exampleCtx.typedArray (JSValue.object 3) = some (1, 2) ∧
    (exampleCtx.arrayBuffer (JSValue.object 3)).1 = 0 ∧
    (unwrapObj [Kind.arrayBuffer, Kind.typed ElemType.int16, Kind.typed ElemType.int32] 0
        exampleCtx (JSValue.object 3)).2 =
      some (Kind.typed ElemType.int16, Outcome.returned ⟨100, 4, 4, ⟨100, 4⟩⟩) :=
  ⟨by decide, by decide,
    ((resolver_example_by_buffer_probe 0 exampleCtx (JSValue.object 3) 1 (by decide)).1
      (by decide)).trans (by decide)⟩

end qjs
